import Mathlib

/-!
Shallow embedding of the bessie battery backtesting engine
(src/bessie/backtests/_backtest.py) and of the strategy implementations
(src/bessie/strategies/*.py) that the verified properties refer to.

Modelling conventions:
  * Python floats are embedded as rationals; all arithmetic is exact.
  * The 8-wide market-ordered numpy arrays
    [charge, discharge, raise6s, raise60s, raise5m, lower6s, lower60s, lower5m]
    are embedded as the structure Arr8 with one named field per slot.
  * The stochastic FCAS call draws (events = numpy.random.rand(8) <= EVENT_PROBS)
    are modelled as an explicit input stream of boolean event vectors,
    one per dispatch interval; the engine code itself draws them from the
    ambient numpy global random state with no seed input.
  * NaN-aware float values (needed for the strategy NaN guards) are
    embedded as Option rationals, with none standing for NaN; every IEEE
    comparison against NaN is false.
-/

/-- Battery configuration, from BatterySpec in backtests/_models.py
(defaults as in the source). -/
structure BatterySpec where
  p_max : ℚ := 50
  e_max : ℚ := 50
  deg : ℚ := 0
  eta_chg : ℚ := 9 / 10
  eta_dchg : ℚ := 19 / 20
deriving DecidableEq, Repr

/-- An 8-wide market-ordered vector, as used for the numpy action, revenue,
DURATIONS, indicator and efficiency arrays in _backtest.py. Field order is
[charge, discharge, raise6s, raise60s, raise5m, lower6s, lower60s, lower5m]. -/
structure Arr8 where
  chg : ℚ
  dchg : ℚ
  r6 : ℚ
  r60 : ℚ
  r5 : ℚ
  l6 : ℚ
  l60 : ℚ
  l5 : ℚ
deriving DecidableEq, Repr

/-- The all-zero 8-vector (numpy.zeros(8)). -/
def Arr8.zero : Arr8 := ⟨0, 0, 0, 0, 0, 0, 0, 0⟩

instance : Inhabited Arr8 := ⟨Arr8.zero⟩

/-- Sum of all 8 components (numpy .sum()). -/
def Arr8.sum (a : Arr8) : ℚ :=
  a.chg + a.dchg + a.r6 + a.r60 + a.r5 + a.l6 + a.l60 + a.l5

/-- One row of the realised price matrix: realised[i, :] with market order
[energy, raise6s, raise60s, raise5m, lower6s, lower60s, lower5m]. -/
structure Prices where
  energy : ℚ
  r6 : ℚ
  r60 : ℚ
  r5 : ℚ
  l6 : ℚ
  l60 : ℚ
  l5 : ℚ
deriving DecidableEq, Repr

instance : Inhabited Prices := ⟨⟨0, 0, 0, 0, 0, 0, 0⟩⟩

/-- One boolean FCAS-call event vector, the result of the per-interval draw
numpy.random.rand(8) <= EVENT_PROBS in _backtest.py. Since EVENT_PROBS is
1.0 for the charge and discharge slots, those two components are true in
every draw the code can produce; the model keeps them as free booleans and
theorems do not depend on them being true. -/
structure Ev8 where
  chg : Bool
  dchg : Bool
  r6 : Bool
  r60 : Bool
  r5 : Bool
  l6 : Bool
  l60 : Bool
  l5 : Bool
deriving DecidableEq, Repr

/-- The all-true event vector. -/
def Ev8.allTrue : Ev8 := ⟨true, true, true, true, true, true, true, true⟩

/-- Numeric value of an event indicator (numpy bool used in arithmetic). -/
def evQ (b : Bool) : ℚ := if b then 1 else 0

/-- The DURATIONS constant of _backtest.py (hours of full response). -/
def DURATIONS : Arr8 :=
  ⟨5 / 60, 5 / 60, 6 / 3600, 60 / 3600, 5 / 60, 6 / 3600, 60 / 3600, 5 / 60⟩

/-- numpy.clip(x, 0.0, 1.0) on one component. -/
def clip01 (x : ℚ) : ℚ := max 0 (min 1 x)

/-- Componentwise clip of an action vector (numpy.clip(action, 0.0, 1.0)). -/
def Arr8.clip (a : Arr8) : Arr8 :=
  ⟨clip01 a.chg, clip01 a.dchg, clip01 a.r6, clip01 a.r60, clip01 a.r5,
    clip01 a.l6, clip01 a.l60, clip01 a.l5⟩

/-- The test (action < 0).any() or (action > 1).any() of _backtest.py. -/
def Arr8.outOfRange (a : Arr8) : Prop :=
  a.chg < 0 ∨ a.chg > 1 ∨ a.dchg < 0 ∨ a.dchg > 1 ∨
  a.r6 < 0 ∨ a.r6 > 1 ∨ a.r60 < 0 ∨ a.r60 > 1 ∨
  a.r5 < 0 ∨ a.r5 > 1 ∨ a.l6 < 0 ∨ a.l6 > 1 ∨
  a.l60 < 0 ∨ a.l60 > 1 ∨ a.l5 < 0 ∨ a.l5 > 1

instance (a : Arr8) : Decidable a.outOfRange := by
  unfold Arr8.outOfRange; infer_instance

/-- discharge_side = action[1] + action[2:5].sum(). -/
def dischargeSide (a : Arr8) : ℚ := a.dchg + (a.r6 + a.r60 + a.r5)

/-- charge_side = action[0] + action[5:8].sum(). -/
def chargeSide (a : Arr8) : ℚ := a.chg + (a.l6 + a.l60 + a.l5)

/-- The discharge-side power-pool normalisation step of _backtest.py: if the
discharge-side sum exceeds 1, divide action[1] and action[2:5] by the sum. -/
def normDischarge (a : Arr8) : Arr8 :=
  let s := dischargeSide a
  if s > 1 then
    { a with dchg := a.dchg / s, r6 := a.r6 / s, r60 := a.r60 / s, r5 := a.r5 / s }
  else a

/-- The charge-side power-pool normalisation step of _backtest.py: if the
charge-side sum exceeds 1, divide action[0] and action[5:8] by the sum. -/
def normCharge (a : Arr8) : Arr8 :=
  let s := chargeSide a
  if s > 1 then
    { a with chg := a.chg / s, l6 := a.l6 / s, l60 := a.l60 / s, l5 := a.l5 / s }
  else a

/-- Both power-pool normalisation steps, in source order (discharge side
first, then charge side computed on the result). -/
def poolNormalize (a : Arr8) : Arr8 := normCharge (normDischarge a)

/-- Zero out raise markets where SoC is insufficient to sustain the full
response: action[2:5][action[2:5] * p_max * DURATIONS[2:5] > c_soc] = 0. -/
def zeroRaise (a : Arr8) (p_max c_soc : ℚ) : Arr8 :=
  { a with
    r6 := if a.r6 * p_max * (6 / 3600) > c_soc then 0 else a.r6,
    r60 := if a.r60 * p_max * (60 / 3600) > c_soc then 0 else a.r60,
    r5 := if a.r5 * p_max * (5 / 60) > c_soc then 0 else a.r5 }

/-- Zero out lower markets where headroom is insufficient:
action[5:8][action[5:8] * p_max * DURATIONS[5:8] > (c_max - c_soc)] = 0. -/
def zeroLower (a : Arr8) (p_max c_soc c_max : ℚ) : Arr8 :=
  { a with
    l6 := if a.l6 * p_max * (6 / 3600) > c_max - c_soc then 0 else a.l6,
    l60 := if a.l60 * p_max * (60 / 3600) > c_max - c_soc then 0 else a.l60,
    l5 := if a.l5 * p_max * (5 / 60) > c_max - c_soc then 0 else a.l5 }

/-- The full in-loop action post-processing of _backtest.py applied to the
raw strategy output, in source order: conditional clip to [0,1], the two
power-pool normalisations, then the raise and lower feasibility zeroing. -/
def processAction (raw : Arr8) (p_max c_soc c_max : ℚ) : Arr8 :=
  let a1 := if raw.outOfRange then raw.clip else raw
  let a2 := poolNormalize a1
  let a3 := zeroRaise a2 p_max c_soc
  zeroLower a3 p_max c_soc c_max

/-- p_actual = action * p_max * indicator * efficiencies * events * DURATIONS,
componentwise, with indicator [+1,-1,-1,-1,-1,+1,+1,+1] and efficiencies
[eta_chg, eta_dchg, eta_dchg, eta_dchg, eta_dchg, eta_chg, eta_chg, eta_chg]. -/
def p_actual (a : Arr8) (p_max eta_chg eta_dchg : ℚ) (e : Ev8) : Arr8 :=
  ⟨a.chg * p_max * 1 * eta_chg * evQ e.chg * (5 / 60),
    a.dchg * p_max * (-1) * eta_dchg * evQ e.dchg * (5 / 60),
    a.r6 * p_max * (-1) * eta_dchg * evQ e.r6 * (6 / 3600),
    a.r60 * p_max * (-1) * eta_dchg * evQ e.r60 * (60 / 3600),
    a.r5 * p_max * (-1) * eta_dchg * evQ e.r5 * (5 / 60),
    a.l6 * p_max * 1 * eta_chg * evQ e.l6 * (6 / 3600),
    a.l60 * p_max * 1 * eta_chg * evQ e.l60 * (60 / 3600),
    a.l5 * p_max * 1 * eta_chg * evQ e.l5 * (5 / 60)⟩

/-- throughput = (action * events * DURATIONS).sum() / dt. -/
def throughput (a : Arr8) (e : Ev8) (dt : ℚ) : ℚ :=
  (a.chg * evQ e.chg * (5 / 60) + a.dchg * evQ e.dchg * (5 / 60) +
      a.r6 * evQ e.r6 * (6 / 3600) + a.r60 * evQ e.r60 * (60 / 3600) +
      a.r5 * evQ e.r5 * (5 / 60) + a.l6 * evQ e.l6 * (6 / 3600) +
      a.l60 * evQ e.l60 * (60 / 3600) + a.l5 * evQ e.l5 * (5 / 60)) / dt

/-- One recorded row of the backtest outputs: output_actions[i],
output_c_soc[i], output_c_max[i], output_revenue[i]. -/
structure StepRec where
  action : Arr8
  c_soc : ℚ
  c_max : ℚ
  revenue : Arr8
deriving DecidableEq, Repr

instance : Inhabited StepRec := ⟨⟨Arr8.zero, 0, 0, Arr8.zero⟩⟩

/-- One iteration of the bess_backtest loop body after the strategy call:
post-process the raw action, apply the stochastic events, then either reject
the whole interval (SOC infeasibility guard) or advance the state, degrade
capacity, and record revenues. Returns the new (c_soc, c_max) state and the
recorded row. -/
def bessStep (battery : BatterySpec) (dt : ℚ) (raw : Arr8) (e : Ev8)
    (price : Prices) (c_soc c_max : ℚ) : (ℚ × ℚ) × StepRec :=
  let a := processAction raw battery.p_max c_soc c_max
  let pa := p_actual a battery.p_max battery.eta_chg battery.eta_dchg e
  if c_soc + pa.sum > c_max ∨ c_soc + pa.sum < 0 then
    ((c_soc, c_max), ⟨Arr8.zero, c_soc, c_max, Arr8.zero⟩)
  else
    let soc2 := c_soc + pa.sum
    let cmax2 := c_max * (1 - battery.deg * throughput a e dt)
    let rev : Arr8 :=
      ⟨-pa.chg * price.energy,
        -pa.dchg * price.energy,
        a.r6 * battery.p_max * dt * price.r6,
        a.r60 * battery.p_max * dt * price.r60,
        a.r5 * battery.p_max * dt * price.r5,
        a.l6 * battery.p_max * dt * price.l6,
        a.l60 * battery.p_max * dt * price.l60,
        a.l5 * battery.p_max * dt * price.l5⟩
    ((soc2, cmax2), ⟨a, soc2, cmax2, rev⟩)

/-- Python/numpy row indexing realised[j, :] with negative-index wraparound:
a negative j counts from the end of the series. Out-of-range indices (which
would raise in Python and never occur in the engine loop) default to the
zero row. -/
def pyGet (xs : List Prices) (j : ℤ) : Prices :=
  if j < 0 then xs.getD ((xs.length : ℤ) + j).toNat default
  else xs.getD j.toNat default

/-- The last_price argument the engine passes to the strategy at loop index i:
data.realised[i - 1, :] under Python indexing. -/
def lastPriceArg (realised : List Prices) (i : ℕ) : Prices :=
  pyGet realised ((i : ℤ) - 1)

/-- The strategy decision contract of strategies/_core.py specialised to the
8-wide engine: arguments are forecast window, c_soc, c_max, p_max, eta_chg,
eta_dchg, last_price; the result is the raw action vector. The forecast type
is a parameter since the engine never inspects it. -/
def Strategy (α : Type) : Type :=
  α → ℚ → ℚ → ℚ → ℚ → ℚ → Prices → Arr8

/-- Input data for one backtest: forecast rows, realised price rows, and the
timestep length in hours (BacktestInputData of backtests/_models.py; the
timestamp index and region play no role in the engine loop). -/
structure BacktestInputData (α : Type) where
  forecast : List α
  realised : List Prices
  dt : ℚ := 5 / 60

/-- The backtest loop of bess_backtest: iterate over the (forecast, realised)
rows, query the strategy with the previous-interval realised price, run one
bessStep per interval, and collect the recorded rows. -/
def bessLoop {α : Type} (battery : BatterySpec) (strategy : Strategy α)
    (events : ℕ → Ev8) (allRealised : List Prices) (dt : ℚ) :
    List (α × Prices) → ℕ → ℚ → ℚ → List StepRec
  | [], _, _, _ => []
  | (f, price) :: rest, i, c_soc, c_max =>
    let raw := strategy f c_soc c_max battery.p_max battery.eta_chg
      battery.eta_dchg (lastPriceArg allRealised i)
    let out := bessStep battery dt raw (events i) price c_soc c_max
    out.2 :: bessLoop battery strategy events allRealised dt rest (i + 1)
      out.1.1 out.1.2

/-- bess_backtest of backtests/_backtest.py: starting from c_soc = 0 and
c_max = battery.e_max, run the loop over the whole series. The stochastic
FCAS call draws are supplied as the explicit event stream argument. -/
def bess_backtest {α : Type} (data : BacktestInputData α)
    (battery : BatterySpec) (strategy : Strategy α) (events : ℕ → Ev8) :
    List StepRec :=
  bessLoop battery strategy events data.realised data.dt
    (data.forecast.zip data.realised) 0 0 battery.e_max

/-- Python round-half-to-even on a rational (the semantics of round() applied
to a float value, used via int(round(x)) in solve_battery_dp). The floor is
computed by integer floor-division of the numerator by the denominator. -/
def pythonRound (q : ℚ) : ℤ :=
  let f := Int.fdiv q.num (q.den : ℤ)
  let r := q - (f : ℚ)
  if r < 1 / 2 then f
  else if 1 / 2 < r then f + 1
  else if f % 2 = 0 then f else f + 1

/-- The memoized recursion _foo of strategies/dynamic.py: minimum cost from
one timestep onwards, starting at SoC grid index i, with the remaining
forecast prices given as a list. The numpy memo cache is pure memoization
over this deterministic recursion and is dropped from the embedding; the
sequential strict-less-than updates of _best are kept verbatim. The grid
index is an integer, matching the int arithmetic of the source (the charge
branch checks only the upper bound j < n_soc, the discharge branch only the
lower bound j >= 0). -/
def dpFoo (gamma_val p_max_val : ℚ) (di_chg di_dchg : ℤ) (n_soc : ℕ) :
    List ℚ → ℤ → ℚ
  | [], _ => 0
  | price :: rest, i =>
    let _dt : ℚ := 5 / 60
    let _cost_chg := (price + gamma_val) * p_max_val * _dt
    let _cost_dchg := (-price + gamma_val) * p_max_val * _dt
    let best0 := dpFoo gamma_val p_max_val di_chg di_dchg n_soc rest i
    let best1 :=
      if i + di_chg < (n_soc : ℤ) then
        let v := _cost_chg +
          dpFoo gamma_val p_max_val di_chg di_dchg n_soc rest (i + di_chg)
        if v < best0 then v else best0
      else best0
    if 0 ≤ i - di_dchg then
      let v := _cost_dchg +
        dpFoo gamma_val p_max_val di_chg di_dchg n_soc rest (i - di_dchg)
      if v < best1 then v else best1
    else best1

/-- solve_battery_dp of strategies/dynamic.py: discretise the SoC range,
compute the grid index deltas of one full-power interval of charging and
discharging, and recover the first action of the optimal policy by comparing
idle, charge and discharge at t = 0 explicitly against the value function
from t = 1 onward. Returns the 7-element action array, whose only possibly
nonzero slot is index 0 (+1 charge, -1 discharge, 0 idle). -/
def solve_battery_dp (forecast_arr : List ℚ)
    (c_init c_max_val p_max_val eta_c eta_d gamma_val : ℚ)
    (n_soc : ℕ := 100) : List ℚ :=
  let dt : ℚ := 5 / 60
  let soc_step := c_max_val / ((n_soc : ℚ) - 1)
  let di_chg := pythonRound (dt * eta_c * p_max_val / soc_step)
  let di_dchg := pythonRound (dt * eta_d * p_max_val / soc_step)
  let i_init := min (max (pythonRound (c_init / soc_step)) 0) ((n_soc : ℤ) - 1)
  let _price := forecast_arr.headI
  let _cost_chg := (_price + gamma_val) * p_max_val * dt
  let _cost_dchg := (-_price + gamma_val) * p_max_val * dt
  let tail := forecast_arr.tail
  let best0 := dpFoo gamma_val p_max_val di_chg di_dchg n_soc tail i_init
  let step1 :=
    if i_init + di_chg < (n_soc : ℤ) then
      let v := _cost_chg +
        dpFoo gamma_val p_max_val di_chg di_dchg n_soc tail (i_init + di_chg)
      if v < best0 then (v, (1 : ℚ)) else (best0, 0)
    else (best0, 0)
  let a0 :=
    if 0 ≤ i_init - di_dchg then
      let v := _cost_dchg +
        dpFoo gamma_val p_max_val di_chg di_dchg n_soc tail (i_init - di_dchg)
      if v < step1.1 then (-1 : ℚ) else step1.2
    else step1.2
  [a0, 0, 0, 0, 0, 0, 0]

/-- NaN-aware float scalar: none stands for NaN. -/
def FloatV : Type := Option ℚ

/-- numpy.isnan(xs).any() over a forecast vector. -/
def anyNan (xs : List FloatV) : Bool := xs.any fun x => x.isNone

/-- IEEE less-than: any comparison involving NaN is false. -/
def fvLt (a b : FloatV) : Bool :=
  match a, b with
  | some a, some b => decide (a < b)
  | _, _ => false

/-- The value of a non-NaN float (used only on NaN-free branches). -/
def fvVal (x : FloatV) : ℚ := x.getD 0

/-- DPOptimised.action of strategies/dynamic.py: zero action (numpy.zeros(7))
on any NaN in the forecast, otherwise delegate to solve_battery_dp with the
default SoC grid size. -/
def DPOptimised.action (gamma : ℚ) (forecast : List FloatV)
    (c_soc c_max p_max eta_chg eta_dchg : ℚ) : List ℚ :=
  if anyNan forecast then List.replicate 7 0
  else solve_battery_dp (forecast.map fvVal) c_soc c_max p_max eta_chg
    eta_dchg gamma 100

/-- ClarabelOptimised.action of strategies/optimised.py, with the cvxpy/
Clarabel solve-and-postprocess path abstracted as a function parameter
(the solver is an external collaborator): the NaN guard returns the scalar
zero action before the solver is ever consulted. -/
def ClarabelOptimised.action
    (solverPath : List FloatV → ℚ → ℚ → ℚ → ℚ → ℚ → ℚ)
    (forecast : List FloatV) (c_soc c_max p_max eta_chg eta_dchg : ℚ) : ℚ :=
  if anyNan forecast then 0
  else solverPath forecast c_soc c_max p_max eta_chg eta_dchg

/-- ClarabelOptimisedFCAS.action of strategies/optimised_fcas.py, with the
cvxpy/Clarabel solve-and-postprocess path abstracted as a function parameter:
the NaN guard returns numpy.zeros(8) before the solver is ever consulted.
The forecast is the (7, horizon) price matrix, one row per market. -/
def ClarabelOptimisedFCAS.action
    (solverPath : List (List FloatV) → ℚ → ℚ → ℚ → ℚ → ℚ → List ℚ)
    (forecast : List (List FloatV))
    (c_soc c_max p_max eta_chg eta_dchg : ℚ) : List ℚ :=
  if forecast.any anyNan then List.replicate 8 0
  else solverPath forecast c_soc c_max p_max eta_chg eta_dchg

/-- NaiveBaseline.action of strategies/baseline.py (scalar action format:
+1 charge, -1 discharge, 0 idle). The forecast argument is ignored by the
source; thresholding uses only last_price and the SoC. -/
def NaiveBaseline.action (charge_limit discharge_limit : ℚ)
    (forecast : List FloatV) (c_soc c_max p_max eta_chg eta_dchg : ℚ)
    (last_price : ℚ) (day : ℤ) : ℚ :=
  if c_soc < c_max / 2 then
    if last_price < charge_limit ∧ c_soc < c_max then 1 else 0
  else
    if last_price > discharge_limit ∧ c_soc > 0 then -1 else 0

/-- The strategy that always returns the zero action vector. -/
def zeroStrategy (α : Type) : Strategy α := fun _ _ _ _ _ _ _ => Arr8.zero

/-- A strategy that always returns a fixed action vector. -/
def constStrategy (α : Type) (a : Arr8) : Strategy α := fun _ _ _ _ _ _ _ => a

lemma processAction_zeroAct (pm cs cm : ℚ) :
    processAction Arr8.zero pm cs cm = Arr8.zero := by
  norm_num [processAction, Arr8.outOfRange, Arr8.zero, poolNormalize,
    normDischarge, normCharge, dischargeSide, chargeSide, zeroRaise, zeroLower]

lemma p_actual_zeroAct (pm ec ed : ℚ) (e : Ev8) :
    p_actual Arr8.zero pm ec ed e = Arr8.zero := by
  simp [p_actual, Arr8.zero]

lemma Arr8.sum_zeroAct : Arr8.zero.sum = 0 := by
  simp [Arr8.sum, Arr8.zero]

lemma throughput_zeroAct (e : Ev8) (dt : ℚ) :
    throughput Arr8.zero e dt = 0 := by
  simp [throughput, Arr8.zero]

lemma bessStep_zeroAct (battery : BatterySpec) (dt : ℚ) (e : Ev8)
    (price : Prices) (cm : ℚ) :
    bessStep battery dt Arr8.zero e price 0 cm =
      ((0, cm), ⟨Arr8.zero, 0, cm, Arr8.zero⟩) := by
  simp only [bessStep, processAction_zeroAct, p_actual_zeroAct,
    Arr8.sum_zeroAct, throughput_zeroAct, add_zero, mul_zero, sub_zero,
    mul_one, neg_zero]
  split_ifs with h
  · rfl
  · simp [Arr8.zero]

lemma bessLoop_zeroStrat {α : Type} (battery : BatterySpec)
    (events : ℕ → Ev8) (allRealised : List Prices) (dt : ℚ) :
    ∀ (rows : List (α × Prices)) (i : ℕ) (cm : ℚ),
      bessLoop battery (zeroStrategy α) events allRealised dt rows i 0 cm =
        List.replicate rows.length ⟨Arr8.zero, 0, cm, Arr8.zero⟩ := by
  intro rows
  induction rows with
  | nil => intro i cm; rfl
  | cons head rest ih =>
    intro i cm
    obtain ⟨f, price⟩ := head
    simp [bessLoop, zeroStrategy, bessStep_zeroAct, ih, List.replicate]

/-- Claim C4: running bess_backtest with the always-zero strategy leaves
c_soc constant at its initial value 0 and c_max constant at e_max at every
timestep, with every action and revenue component exactly zero, for any
input data, battery spec and event draws; and in the end-to-end scenario
BatterySpec(p_max=50, e_max=50, deg=0, eta_chg=0.9, eta_dchg=0.95) on the
2-interval realised series [20, 20], the outputs are c_soc=[0,0],
c_max=[50,50] and all-zero actions and revenues. -/
theorem zero_action_invariance :
    (∀ (α : Type) (data : BacktestInputData α) (battery : BatterySpec)
        (events : ℕ → Ev8),
      bess_backtest data battery (zeroStrategy α) events =
        List.replicate (data.forecast.zip data.realised).length
          ⟨Arr8.zero, 0, battery.e_max, Arr8.zero⟩) ∧
    (∀ events : ℕ → Ev8,
      bess_backtest
        (α := Unit)
        { forecast := [(), ()],
          realised := [⟨20, 0, 0, 0, 0, 0, 0⟩, ⟨20, 0, 0, 0, 0, 0, 0⟩] }
        { p_max := 50, e_max := 50, deg := 0, eta_chg := 9 / 10,
          eta_dchg := 19 / 20 }
        (zeroStrategy Unit) events =
        [⟨Arr8.zero, 0, 50, Arr8.zero⟩, ⟨Arr8.zero, 0, 50, Arr8.zero⟩]) := by
  constructor
  · intro α data battery events
    unfold bess_backtest
    exact bessLoop_zeroStrat battery events data.realised data.dt _ 0
      battery.e_max
  · intro events
    unfold bess_backtest
    rw [bessLoop_zeroStrat]
    rfl

lemma poolNormalize_eq_self (a : Arr8) (hd : dischargeSide a ≤ 1)
    (hc : chargeSide a ≤ 1) : poolNormalize a = a := by
  unfold poolNormalize normDischarge normCharge
  rw [if_neg (not_lt.mpr hd), if_neg (not_lt.mpr hc)]

/-- Claim C9: applying the power-pool normalisation step of the engine to an
action vector whose discharge-side group sum (discharge plus raise FCAS) and
charge-side group sum (charge plus lower FCAS) are each already at most 1
leaves every component of the vector unchanged. -/
theorem pool_normalization_idempotent (a : Arr8)
    (hd : dischargeSide a ≤ 1) (hc : chargeSide a ≤ 1) :
    poolNormalize a = a :=
  poolNormalize_eq_self a hd hc

/-- Witness for claim C9 at a concrete normalised vector. -/
theorem pool_normalization_idempotent_witness :
    dischargeSide ⟨1 / 4, 1 / 2, 1 / 8, 1 / 8, 1 / 8, 0, 1 / 4, 1 / 4⟩ ≤ 1 ∧
    chargeSide ⟨1 / 4, 1 / 2, 1 / 8, 1 / 8, 1 / 8, 0, 1 / 4, 1 / 4⟩ ≤ 1 ∧
    poolNormalize ⟨1 / 4, 1 / 2, 1 / 8, 1 / 8, 1 / 8, 0, 1 / 4, 1 / 4⟩ =
      ⟨1 / 4, 1 / 2, 1 / 8, 1 / 8, 1 / 8, 0, 1 / 4, 1 / 4⟩ :=
  ⟨by with_unfolding_all decide, by with_unfolding_all decide,
    pool_normalization_idempotent _ (by with_unfolding_all decide)
      (by with_unfolding_all decide)⟩

/-- Claim C3: whenever the summed signed energy delta of an interval would
take the SOC outside [0, c_max], the engine rejects the interval wholesale:
the recorded action and revenue rows are exactly zero, the recorded c_soc
and c_max equal their prior values, and the loop state is unchanged (no
partial application, no degradation). -/
theorem interval_all_or_nothing (battery : BatterySpec) (dt : ℚ) (raw : Arr8)
    (e : Ev8) (price : Prices) (cs cm : ℚ)
    (h : cs + (p_actual (processAction raw battery.p_max cs cm) battery.p_max
        battery.eta_chg battery.eta_dchg e).sum > cm ∨
      cs + (p_actual (processAction raw battery.p_max cs cm) battery.p_max
        battery.eta_chg battery.eta_dchg e).sum < 0) :
    bessStep battery dt raw e price cs cm =
      ((cs, cm), ⟨Arr8.zero, cs, cm, Arr8.zero⟩) := by
  simp only [bessStep]
  rw [if_pos h]

/-- Witness for claim C3: a full-power discharge from an empty battery is
rejected wholesale. -/
theorem interval_all_or_nothing_witness :
    (0 + (p_actual (processAction { Arr8.zero with dchg := 1 } 12 0 50) 12
        (9 / 10) (19 / 20) Ev8.allTrue).sum > 50 ∨
      0 + (p_actual (processAction { Arr8.zero with dchg := 1 } 12 0 50) 12
        (9 / 10) (19 / 20) Ev8.allTrue).sum < 0) ∧
    bessStep ⟨12, 50, 0, 9 / 10, 19 / 20⟩ (5 / 60) { Arr8.zero with dchg := 1 }
      Ev8.allTrue ⟨20, 0, 0, 0, 0, 0, 0⟩ 0 50 =
      ((0, 50), ⟨Arr8.zero, 0, 50, Arr8.zero⟩) :=
  ⟨by with_unfolding_all decide,
    interval_all_or_nothing _ _ _ _ _ _ _ (by with_unfolding_all decide)⟩

lemma bessStep_record_state (battery : BatterySpec) (dt : ℚ) (raw : Arr8)
    (e : Ev8) (price : Prices) (cs cm : ℚ) :
    (bessStep battery dt raw e price cs cm).2.c_soc =
      (bessStep battery dt raw e price cs cm).1.1 ∧
    (bessStep battery dt raw e price cs cm).2.c_max =
      (bessStep battery dt raw e price cs cm).1.2 := by
  simp only [bessStep]
  split_ifs <;> exact ⟨rfl, rfl⟩

lemma bessStep_state_inv (battery : BatterySpec) (dt : ℚ) (raw : Arr8)
    (e : Ev8) (price : Prices) (cs cm : ℚ) (h0 : 0 ≤ cs)
    (h1 : battery.deg = 0 → cs ≤ cm) :
    0 ≤ (bessStep battery dt raw e price cs cm).1.1 ∧
    (battery.deg = 0 →
      (bessStep battery dt raw e price cs cm).1.1 ≤
        (bessStep battery dt raw e price cs cm).1.2) := by
  simp only [bessStep]
  split_ifs with h
  · exact ⟨h0, h1⟩
  · push_neg at h
    refine ⟨h.2, fun hdeg => ?_⟩
    rw [hdeg]
    simpa using h.1

lemma bessLoop_inv {α : Type} (battery : BatterySpec) (strategy : Strategy α)
    (events : ℕ → Ev8) (allRealised : List Prices) (dt : ℚ) :
    ∀ (rows : List (α × Prices)) (i : ℕ) (cs cm : ℚ), 0 ≤ cs →
      (battery.deg = 0 → cs ≤ cm) →
      ∀ r ∈ bessLoop battery strategy events allRealised dt rows i cs cm,
        0 ≤ r.c_soc ∧ (battery.deg = 0 → r.c_soc ≤ r.c_max) := by
  intro rows
  induction rows with
  | nil => intro i cs cm h0 h1 r hr; simp [bessLoop] at hr
  | cons head rest ih =>
    intro i cs cm h0 h1 r hr
    obtain ⟨f, price⟩ := head
    simp only [bessLoop, List.mem_cons] at hr
    rcases hr with hr | hr
    · subst hr
      have hrs := bessStep_record_state battery dt
        (strategy f cs cm battery.p_max battery.eta_chg battery.eta_dchg
          (lastPriceArg allRealised i)) (events i) price cs cm
      have hst := bessStep_state_inv battery dt
        (strategy f cs cm battery.p_max battery.eta_chg battery.eta_dchg
          (lastPriceArg allRealised i)) (events i) price cs cm h0 h1
      rw [hrs.1, hrs.2]
      exact hst
    · have hst := bessStep_state_inv battery dt
        (strategy f cs cm battery.p_max battery.eta_chg battery.eta_dchg
          (lastPriceArg allRealised i)) (events i) price cs cm h0 h1
      exact ih (i + 1) _ _ hst.1 hst.2 r hr

/-- Claim C1 (amended): in every bess_backtest run the recorded SOC satisfies
0 <= c_soc[t] at every timestep, and when deg = 0 also c_soc[t] <= c_max[t].
With deg > 0 the upper bound can fail, because degradation shrinks c_max
after the SOC feasibility check (see the counterexample theorem). -/
theorem backtest_soc_bounds_amended {α : Type} (data : BacktestInputData α)
    (battery : BatterySpec) (strategy : Strategy α) (events : ℕ → Ev8)
    (hE : 0 ≤ battery.e_max) :
    ∀ r ∈ bess_backtest data battery strategy events,
      0 ≤ r.c_soc ∧ (battery.deg = 0 → r.c_soc ≤ r.c_max) := by
  intro r hr
  exact bessLoop_inv battery strategy events data.realised data.dt
    (data.forecast.zip data.realised) 0 0 battery.e_max le_rfl
    (fun _ => hE) r hr

/-- Witness for claim C1 (amended) at a concrete run with deg = 0. -/
theorem backtest_soc_bounds_amended_witness :
    (0 : ℚ) ≤ (50 : ℚ) ∧
    ∀ r ∈ bess_backtest (α := Unit)
        { forecast := [()], realised := [⟨20, 0, 0, 0, 0, 0, 0⟩] }
        ⟨12, 50, 0, 9 / 10, 19 / 20⟩
        (constStrategy Unit { Arr8.zero with chg := 1 })
        (fun _ => Ev8.allTrue),
      0 ≤ r.c_soc ∧ ((⟨12, 50, 0, 9 / 10, 19 / 20⟩ : BatterySpec).deg = 0 →
        r.c_soc ≤ r.c_max) :=
  ⟨by norm_num,
    backtest_soc_bounds_amended _ _ _ _ (by norm_num)⟩

/-- Counterexample for claim C1 as stated: with deg = 1/10 > 0, a full-power
charge that exactly fills the battery passes the feasibility check against
the old capacity, after which degradation shrinks c_max below c_soc, so the
recorded row has c_soc = 50 > c_max = 45. -/
theorem backtest_soc_bounds_cex :
    ((bess_backtest (α := Unit)
        { forecast := [()], realised := [⟨20, 0, 0, 0, 0, 0, 0⟩] }
        ⟨600, 50, 1 / 10, 1, 1⟩
        (constStrategy Unit { Arr8.zero with chg := 1 })
        (fun _ => Ev8.allTrue)).getD 0 default).c_soc = 50 ∧
    ((bess_backtest (α := Unit)
        { forecast := [()], realised := [⟨20, 0, 0, 0, 0, 0, 0⟩] }
        ⟨600, 50, 1 / 10, 1, 1⟩
        (constStrategy Unit { Arr8.zero with chg := 1 })
        (fun _ => Ev8.allTrue)).getD 0 default).c_max = 45 ∧
    ¬ ((bess_backtest (α := Unit)
        { forecast := [()], realised := [⟨20, 0, 0, 0, 0, 0, 0⟩] }
        ⟨600, 50, 1 / 10, 1, 1⟩
        (constStrategy Unit { Arr8.zero with chg := 1 })
        (fun _ => Ev8.allTrue)).getD 0 default).c_soc ≤
      ((bess_backtest (α := Unit)
        { forecast := [()], realised := [⟨20, 0, 0, 0, 0, 0, 0⟩] }
        ⟨600, 50, 1 / 10, 1, 1⟩
        (constStrategy Unit { Arr8.zero with chg := 1 })
        (fun _ => Ev8.allTrue)).getD 0 default).c_max := by
  refine ⟨?_, ?_, ?_⟩ <;> with_unfolding_all decide

lemma processAction_eq_self (raw : Arr8) (pm cs cm : ℚ)
    (hr : ¬ raw.outOfRange)
    (hd : dischargeSide raw ≤ 1) (hc : chargeSide raw ≤ 1)
    (h6 : ¬ raw.r6 * pm * (6 / 3600) > cs)
    (h60 : ¬ raw.r60 * pm * (60 / 3600) > cs)
    (h5 : ¬ raw.r5 * pm * (5 / 60) > cs)
    (g6 : ¬ raw.l6 * pm * (6 / 3600) > cm - cs)
    (g60 : ¬ raw.l60 * pm * (60 / 3600) > cm - cs)
    (g5 : ¬ raw.l5 * pm * (5 / 60) > cm - cs) :
    processAction raw pm cs cm = raw := by
  simp only [processAction]
  rw [if_neg hr, poolNormalize_eq_self raw hd hc]
  simp only [zeroRaise, zeroLower]
  simp only [if_neg h6, if_neg h60, if_neg h5]
  simp only [if_neg g6, if_neg g60, if_neg g5]

/-- Claim C2 (amended): the engine has no energy-market mutual-exclusion
step. An in-range action whose power-pool sums are within bounds and whose
FCAS components pass the SOC/headroom checks is recorded exactly as given
whenever the net SOC delta stays in range — in particular an action with
both the charge and the discharge fraction strictly positive is applied and
recorded with both fractions positive, neither reported nor zeroed. -/
theorem engine_no_mutual_exclusion (battery : BatterySpec) (dt : ℚ)
    (raw : Arr8) (e : Ev8) (price : Prices) (cs cm : ℚ)
    (hr : ¬ raw.outOfRange)
    (hd : dischargeSide raw ≤ 1) (hc : chargeSide raw ≤ 1)
    (h6 : ¬ raw.r6 * battery.p_max * (6 / 3600) > cs)
    (h60 : ¬ raw.r60 * battery.p_max * (60 / 3600) > cs)
    (h5 : ¬ raw.r5 * battery.p_max * (5 / 60) > cs)
    (g6 : ¬ raw.l6 * battery.p_max * (6 / 3600) > cm - cs)
    (g60 : ¬ raw.l60 * battery.p_max * (60 / 3600) > cm - cs)
    (g5 : ¬ raw.l5 * battery.p_max * (5 / 60) > cm - cs)
    (hacc : ¬ (cs + (p_actual raw battery.p_max battery.eta_chg
        battery.eta_dchg e).sum > cm ∨
      cs + (p_actual raw battery.p_max battery.eta_chg
        battery.eta_dchg e).sum < 0)) :
    (bessStep battery dt raw e price cs cm).2.action = raw := by
  have hp := processAction_eq_self raw battery.p_max cs cm hr hd hc h6 h60 h5
    g6 g60 g5
  simp only [bessStep, hp]
  rw [if_neg hacc]

/-- Witness for claim C2 (amended): an action with charge fraction 1/2 and
discharge fraction 1/2 simultaneously is applied and recorded unchanged. -/
theorem engine_no_mutual_exclusion_witness :
    (bessStep ⟨12, 50, 0, 9 / 10, 1 / 2⟩ (5 / 60)
        { Arr8.zero with chg := 1 / 2, dchg := 1 / 2 } Ev8.allTrue
        ⟨20, 0, 0, 0, 0, 0, 0⟩ 0 50).2.action =
      { Arr8.zero with chg := 1 / 2, dchg := 1 / 2 } ∧
    (0 : ℚ) < 1 / 2 :=
  ⟨engine_no_mutual_exclusion ⟨12, 50, 0, 9 / 10, 1 / 2⟩ (5 / 60)
      { Arr8.zero with chg := 1 / 2, dchg := 1 / 2 } Ev8.allTrue
      ⟨20, 0, 0, 0, 0, 0, 0⟩ 0 50
      (by with_unfolding_all decide) (by with_unfolding_all decide)
      (by with_unfolding_all decide) (by with_unfolding_all decide)
      (by with_unfolding_all decide) (by with_unfolding_all decide)
      (by with_unfolding_all decide) (by with_unfolding_all decide)
      (by with_unfolding_all decide) (by with_unfolding_all decide),
    by norm_num⟩

/-- Counterexample for claim C2 as stated: a bess_backtest run whose first
recorded action has both the charge fraction and the discharge fraction
strictly positive — the engine neither reports this nor zeroes the pair. -/
theorem mutual_exclusion_cex :
    0 < ((bess_backtest (α := Unit)
        { forecast := [()], realised := [⟨20, 0, 0, 0, 0, 0, 0⟩] }
        ⟨12, 50, 0, 9 / 10, 1 / 2⟩
        (constStrategy Unit { Arr8.zero with chg := 1 / 2, dchg := 1 / 2 })
        (fun _ => Ev8.allTrue)).getD 0 default).action.chg ∧
    0 < ((bess_backtest (α := Unit)
        { forecast := [()], realised := [⟨20, 0, 0, 0, 0, 0, 0⟩] }
        ⟨12, 50, 0, 9 / 10, 1 / 2⟩
        (constStrategy Unit { Arr8.zero with chg := 1 / 2, dchg := 1 / 2 })
        (fun _ => Ev8.allTrue)).getD 0 default).action.dchg := by
  constructor <;> with_unfolding_all decide

/-- Claim C6: for a non-rejected interval, each of the six recorded FCAS
revenue components equals the post-feasibility committed fraction times
p_max times that market's realised price times dt, and the FCAS revenue is
identical under any two event draws that both lead to acceptance (the
availability payment does not depend on whether the market was called). -/
theorem fcas_revenue_availability (battery : BatterySpec) (dt : ℚ)
    (raw : Arr8) (e1 e2 : Ev8) (price : Prices) (cs cm : ℚ)
    (h1 : ¬ (cs + (p_actual (processAction raw battery.p_max cs cm)
        battery.p_max battery.eta_chg battery.eta_dchg e1).sum > cm ∨
      cs + (p_actual (processAction raw battery.p_max cs cm) battery.p_max
        battery.eta_chg battery.eta_dchg e1).sum < 0))
    (h2 : ¬ (cs + (p_actual (processAction raw battery.p_max cs cm)
        battery.p_max battery.eta_chg battery.eta_dchg e2).sum > cm ∨
      cs + (p_actual (processAction raw battery.p_max cs cm) battery.p_max
        battery.eta_chg battery.eta_dchg e2).sum < 0)) :
    ((bessStep battery dt raw e1 price cs cm).2.revenue.r6 =
        (processAction raw battery.p_max cs cm).r6 * battery.p_max * dt *
          price.r6 ∧
      (bessStep battery dt raw e1 price cs cm).2.revenue.r60 =
        (processAction raw battery.p_max cs cm).r60 * battery.p_max * dt *
          price.r60 ∧
      (bessStep battery dt raw e1 price cs cm).2.revenue.r5 =
        (processAction raw battery.p_max cs cm).r5 * battery.p_max * dt *
          price.r5 ∧
      (bessStep battery dt raw e1 price cs cm).2.revenue.l6 =
        (processAction raw battery.p_max cs cm).l6 * battery.p_max * dt *
          price.l6 ∧
      (bessStep battery dt raw e1 price cs cm).2.revenue.l60 =
        (processAction raw battery.p_max cs cm).l60 * battery.p_max * dt *
          price.l60 ∧
      (bessStep battery dt raw e1 price cs cm).2.revenue.l5 =
        (processAction raw battery.p_max cs cm).l5 * battery.p_max * dt *
          price.l5) ∧
    ((bessStep battery dt raw e1 price cs cm).2.revenue.r6 =
        (bessStep battery dt raw e2 price cs cm).2.revenue.r6 ∧
      (bessStep battery dt raw e1 price cs cm).2.revenue.r60 =
        (bessStep battery dt raw e2 price cs cm).2.revenue.r60 ∧
      (bessStep battery dt raw e1 price cs cm).2.revenue.r5 =
        (bessStep battery dt raw e2 price cs cm).2.revenue.r5 ∧
      (bessStep battery dt raw e1 price cs cm).2.revenue.l6 =
        (bessStep battery dt raw e2 price cs cm).2.revenue.l6 ∧
      (bessStep battery dt raw e1 price cs cm).2.revenue.l60 =
        (bessStep battery dt raw e2 price cs cm).2.revenue.l60 ∧
      (bessStep battery dt raw e1 price cs cm).2.revenue.l5 =
        (bessStep battery dt raw e2 price cs cm).2.revenue.l5) := by
  simp only [bessStep]
  rw [if_neg h1, if_neg h2]
  exact ⟨⟨rfl, rfl, rfl, rfl, rfl, rfl⟩, ⟨rfl, rfl, rfl, rfl, rfl, rfl⟩⟩

/-- Witness for claim C6: a half-power raise-5min commitment from SOC 10 is
accepted both when the market is called and when it is not, with the same
recorded FCAS revenue. -/
theorem fcas_revenue_availability_witness :
    (¬ ((10 : ℚ) + (p_actual (processAction
          { Arr8.zero with r5 := 1 / 2 } 12 10 50) 12 (9 / 10) (19 / 20)
          Ev8.allTrue).sum > 50 ∨
        (10 : ℚ) + (p_actual (processAction
          { Arr8.zero with r5 := 1 / 2 } 12 10 50) 12 (9 / 10) (19 / 20)
          Ev8.allTrue).sum < 0) ∧
      (bessStep ⟨12, 50, 0, 9 / 10, 19 / 20⟩ (5 / 60)
          { Arr8.zero with r5 := 1 / 2 } Ev8.allTrue ⟨20, 7, 7, 7, 7, 7, 7⟩
          10 50).2.revenue.r5 =
        (bessStep ⟨12, 50, 0, 9 / 10, 19 / 20⟩ (5 / 60)
          { Arr8.zero with r5 := 1 / 2 } { Ev8.allTrue with r5 := false }
          ⟨20, 7, 7, 7, 7, 7, 7⟩ 10 50).2.revenue.r5) ∧
    (bessStep ⟨12, 50, 0, 9 / 10, 19 / 20⟩ (5 / 60)
        { Arr8.zero with r5 := 1 / 2 } Ev8.allTrue ⟨20, 7, 7, 7, 7, 7, 7⟩
        10 50).2.revenue.r5 =
      (processAction { Arr8.zero with r5 := 1 / 2 } 12 10 50).r5 * 12 *
        (5 / 60) * 7 :=
  ⟨⟨by with_unfolding_all decide,
      ((fcas_revenue_availability ⟨12, 50, 0, 9 / 10, 19 / 20⟩ (5 / 60)
        { Arr8.zero with r5 := 1 / 2 } Ev8.allTrue
        { Ev8.allTrue with r5 := false } ⟨20, 7, 7, 7, 7, 7, 7⟩ 10 50
        (by with_unfolding_all decide)
        (by with_unfolding_all decide)).2.2.2.1)⟩,
    ((fcas_revenue_availability ⟨12, 50, 0, 9 / 10, 19 / 20⟩ (5 / 60)
      { Arr8.zero with r5 := 1 / 2 } Ev8.allTrue
      { Ev8.allTrue with r5 := false } ⟨20, 7, 7, 7, 7, 7, 7⟩ 10 50
      (by with_unfolding_all decide)
      (by with_unfolding_all decide)).1.2.2.1)⟩

/-- Claim C5: for the 2-step forecast [10, 1000] with gamma = 0, equal unit
efficiencies, ample SOC range (a 100-level grid over capacity 99 MWh with
one interval of full-power charge moving exactly one grid level) and the
engine's initial SOC of 0, solve_battery_dp returns the charge action at
step 0 (+1 in slot 0) rather than idle, since the later discharge profit
outweighs the charge cost. -/
theorem dp_charges_on_cheap_then_expensive :
    solve_battery_dp [10, 1000] 0 99 12 1 1 0 100 = [1, 0, 0, 0, 0, 0, 0] := by
  with_unfolding_all decide

/-- Claim C7 evidence: bess_backtest output is a function of the stochastic
FCAS call draws. With identical data, battery and strategy, two different
event draws produce different BacktestResults, so results are not
reproducible from the function inputs alone; the source draws the events
from the ambient numpy global random state and accepts no seed. -/
theorem backtest_output_depends_on_random_draws :
    bess_backtest (α := Unit)
        { forecast := [()], realised := [⟨20, 0, 0, 0, 0, 0, 0⟩] }
        ⟨12, 50, 0, 9 / 10, 19 / 20⟩
        (constStrategy Unit { Arr8.zero with l5 := 1 })
        (fun _ => Ev8.allTrue) ≠
      bess_backtest (α := Unit)
        { forecast := [()], realised := [⟨20, 0, 0, 0, 0, 0, 0⟩] }
        ⟨12, 50, 0, 9 / 10, 19 / 20⟩
        (constStrategy Unit { Arr8.zero with l5 := 1 })
        (fun _ => { Ev8.allTrue with l5 := false }) := by
  with_unfolding_all decide

/-- Claim C8 (amended): the three optimisation strategies return the zero
action on any NaN-containing forecast, before consulting their solvers. -/
theorem nan_guard_zero_action_optimisers :
    (∀ (solverPath : List FloatV → ℚ → ℚ → ℚ → ℚ → ℚ → ℚ)
        (forecast : List FloatV) (cs cm pm ec ed : ℚ),
      anyNan forecast = true →
        ClarabelOptimised.action solverPath forecast cs cm pm ec ed = 0) ∧
    (∀ (gamma : ℚ) (forecast : List FloatV) (cs cm pm ec ed : ℚ),
      anyNan forecast = true →
        DPOptimised.action gamma forecast cs cm pm ec ed =
          List.replicate 7 0) ∧
    (∀ (solverPath : List (List FloatV) → ℚ → ℚ → ℚ → ℚ → ℚ → List ℚ)
        (forecast : List (List FloatV)) (cs cm pm ec ed : ℚ),
      forecast.any anyNan = true →
        ClarabelOptimisedFCAS.action solverPath forecast cs cm pm ec ed =
          List.replicate 8 0) := by
  refine ⟨fun solverPath forecast cs cm pm ec ed h => ?_,
    fun gamma forecast cs cm pm ec ed h => ?_,
    fun solverPath forecast cs cm pm ec ed h => ?_⟩
  · simp [ClarabelOptimised.action, h]
  · simp [DPOptimised.action, h]
  · simp [ClarabelOptimisedFCAS.action, h]

/-- Witness for claim C8 (amended) at a concrete NaN-containing forecast. -/
theorem nan_guard_zero_action_optimisers_witness :
    anyNan [some 5, none] = true ∧
    ClarabelOptimised.action (fun _ _ _ _ _ _ => 3) [some 5, none] 0 50 12
      (9 / 10) (19 / 20) = 0 ∧
    DPOptimised.action 0 [some 5, none] 0 50 12 (9 / 10) (19 / 20) =
      List.replicate 7 0 ∧
    ClarabelOptimisedFCAS.action (fun _ _ _ _ _ _ => List.replicate 8 (1 / 2))
      [[some 5, none]] 0 50 12 (9 / 10) (19 / 20) = List.replicate 8 0 :=
  ⟨rfl,
    nan_guard_zero_action_optimisers.1 (fun _ _ _ _ _ _ => 3) [some 5, none]
      0 50 12 (9 / 10) (19 / 20) rfl,
    nan_guard_zero_action_optimisers.2.1 0 [some 5, none]
      0 50 12 (9 / 10) (19 / 20) rfl,
    nan_guard_zero_action_optimisers.2.2 (fun _ _ _ _ _ _ =>
      List.replicate 8 (1 / 2)) [[some 5, none]] 0 50 12 (9 / 10) (19 / 20)
      rfl⟩

/-- Counterexample for claim C8 as stated: NaiveBaseline ignores the
forecast, so on a NaN-containing forecast with a low last price and an
empty battery it returns the full charge action +1, not the zero action. -/
theorem nan_fallback_cex_naive_baseline :
    anyNan [none] = true ∧
    NaiveBaseline.action 20 100 [none] 0 50 12 (9 / 10) (19 / 20) 10 0 = 1 ∧
    (1 : ℚ) ≠ 0 := by
  refine ⟨rfl, ?_, by norm_num⟩
  norm_num [NaiveBaseline.action]

/-- Claim C10: the last_price argument of the first dispatch interval is the
realised-price row of the final interval of the series (Python index -1);
from interval 1 onward it is the realised row of the previous interval. -/
theorem last_price_wraparound (realised : List Prices) (h : realised ≠ []) :
    lastPriceArg realised 0 = realised.getLast h ∧
    ∀ i : ℕ, 1 ≤ i →
      lastPriceArg realised i = realised.getD (i - 1) default := by
  constructor
  · unfold lastPriceArg pyGet
    norm_num
    rw [List.getLast_eq_getElem]
    have hpos := List.length_pos.mpr h
    have hn : realised.length - 1 < realised.length := by omega
    have ht : ((realised.length : ℤ) + -1).toNat = realised.length - 1 := by
      omega
    rw [ht, List.getElem?_eq_getElem hn]
    rfl
  · intro i hi
    unfold lastPriceArg pyGet
    have hnneg : ¬ ((i : ℤ) - 1 < 0) := by omega
    rw [if_neg hnneg]
    have : ((i : ℤ) - 1).toNat = i - 1 := by omega
    rw [this]

/-- Witness for claim C10 on a concrete 2-interval series: interval 0 sees
the final row, interval 1 sees row 0. -/
theorem last_price_wraparound_witness :
    ([⟨1, 2, 3, 4, 5, 6, 7⟩, ⟨8, 9, 10, 11, 12, 13, 14⟩] : List Prices) ≠
      [] ∧
    lastPriceArg [⟨1, 2, 3, 4, 5, 6, 7⟩, ⟨8, 9, 10, 11, 12, 13, 14⟩] 0 =
      ⟨8, 9, 10, 11, 12, 13, 14⟩ ∧
    lastPriceArg [⟨1, 2, 3, 4, 5, 6, 7⟩, ⟨8, 9, 10, 11, 12, 13, 14⟩] 1 =
      ⟨1, 2, 3, 4, 5, 6, 7⟩ := by
  have hne : ([⟨1, 2, 3, 4, 5, 6, 7⟩, ⟨8, 9, 10, 11, 12, 13, 14⟩] :
      List Prices) ≠ [] := by simp
  have hthm := last_price_wraparound
    [⟨1, 2, 3, 4, 5, 6, 7⟩, ⟨8, 9, 10, 11, 12, 13, 14⟩] hne
  refine ⟨hne, ?_, ?_⟩
  · rw [hthm.1]; rfl
  · rw [hthm.2 1 le_rfl]; rfl
